/-
Verification of the declarative headers of the ESP_ticker test project
(src/testProject/ESP_ticker/Debug.h and ESP_ticker.h): the debug-output
macro shim, the scroll-effect catalog, the configuration constants and
the global variable declarations, shallowly embedded in Lean 4.
-/
import Mathlib

namespace ESPTicker

/-! ## Debug.h: the debug-output shim

Each macro in Debug.h is a GNU statement expression wrapping exactly one
call on the global `Serial` object, e.g.
`Debug(...)` expands to a block evaluating `Serial.print(__VA_ARGS__);`.
A statement expression evaluates to the value of its final expression
statement, so the write macros evaluate to the `size_t` count returned by
the underlying write, while `DebugFlush()` evaluates to `void` because
`Serial.flush()` returns `void`.

We model an invocation by the pair of the value it evaluates to and the
trace of transport operations it performs.  `alpha` is the (abstract)
type of the macro's variadic argument list, forwarded opaquely. -/

/-- One observable operation on the serial transport, carrying the
argument list it was given. -/
inductive SerialOp (alpha : Type) where
  | print (args : alpha)
  | println (args : alpha)
  | printf (args : alpha)
  | flush
deriving DecidableEq

/-- The `Serial` object of the Arduino core, abstracted to what the
macros of Debug.h can observe of it: the `size_t` counts its write
operations return.  The writes themselves appear in the trace. -/
structure HardwareSerial (alpha : Type) where
  printCount : alpha → Nat
  printlnCount : alpha → Nat
  printfCount : alpha → Nat

/-- `Debug(...)`: one `Serial.print(__VA_ARGS__)` call; the statement
expression's value is the count `Serial.print` returned. -/
def Debug (Serial : HardwareSerial alpha) (args : alpha) :
    Nat × List (SerialOp alpha) :=
  (Serial.printCount args, [SerialOp.print args])

/-- `Debugln(...)`: one `Serial.println(__VA_ARGS__)` call. -/
def Debugln (Serial : HardwareSerial alpha) (args : alpha) :
    Nat × List (SerialOp alpha) :=
  (Serial.printlnCount args, [SerialOp.println args])

/-- `Debugf(...)`: one `Serial.printf(__VA_ARGS__)` call. -/
def Debugf (Serial : HardwareSerial alpha) (args : alpha) :
    Nat × List (SerialOp alpha) :=
  (Serial.printfCount args, [SerialOp.printf args])

/-- `DebugFlush()`: one `Serial.flush()` call; `flush` returns `void`,
so the statement expression yields no value. -/
def DebugFlush (Serial : HardwareSerial alpha) :
    Unit × List (SerialOp alpha) :=
  ((), [SerialOp.flush])

/-- `DebugT(...)` expands to `Debug(__VA_ARGS__)` verbatim. -/
def DebugT (Serial : HardwareSerial alpha) (args : alpha) :
    Nat × List (SerialOp alpha) :=
  Debug Serial args

/-- `DebugTln(...)` expands to `Debugln(__VA_ARGS__)` verbatim. -/
def DebugTln (Serial : HardwareSerial alpha) (args : alpha) :
    Nat × List (SerialOp alpha) :=
  Debugln Serial args

/-- `DebugTf(...)` expands to `Debugf(__VA_ARGS__)` verbatim. -/
def DebugTf (Serial : HardwareSerial alpha) (args : alpha) :
    Nat × List (SerialOp alpha) :=
  Debugf Serial args

/-- A concrete serial transport over string argument lists, used to
evaluate the shim at concrete inputs: `print` reports the string's
length, `println` two more for the line ending. -/
def stringSerial : HardwareSerial String where
  printCount := String.length
  printlnCount := fun s => s.length + 2
  printfCount := String.length

/-! ## ESP_ticker.h: constants -/

/-- `#define MAX_DEVICES 8` -/
def MAX_DEVICES : Nat := 8

/-- `#define MAX_SPEED 50` -/
def MAX_SPEED : Nat := 50

/-- `#define CS_PIN 15` -/
def CS_PIN : Nat := 15

/-- `#define SETTINGS_FILE "/settings.ini"` -/
def SETTINGS_FILE : String := "/settings.ini"

/-- `#define LOCAL_SIZE 255` -/
def LOCAL_SIZE : Nat := 255

/-- `#define NEWS_SIZE 512` -/
def NEWS_SIZE : Nat := 512

/-- `#define JSON_BUFF_MAX 255` -/
def JSON_BUFF_MAX : Nat := 255

/-- `#define MAX_NO_NO_WORDS 20` -/
def MAX_NO_NO_WORDS : Nat := 20

/-! ## ESP_ticker.h: the web server -/

/-- `ESP8266WebServer`, abstracted to its constructor argument: the
listening port. -/
structure ESP8266WebServer where
  port : Nat
deriving DecidableEq

/-- `ESP8266WebServer httpServer(80);` -/
def httpServer : ESP8266WebServer := ESP8266WebServer.mk 80

/-- The web-server objects instantiated by the fragment: `httpServer`
is the only one declared. -/
def declaredWebServers : List ESP8266WebServer := [httpServer]

/-! ## ESP_ticker.h: the scroll-effect catalog -/

/-- The `textEffect_t` identifiers named in ESP_ticker.h, including the
four that appear only commented out (`PA_SCAN_HORIZ`, `PA_BLINDS`,
`PA_DISSOLVE`, `PA_SLICE`). -/
inductive textEffect_t where
  | PA_PRINT
  | PA_SCAN_HORIZ
  | PA_SCROLL_LEFT
  | PA_WIPE
  | PA_SCROLL_UP_LEFT
  | PA_SCROLL_UP
  | PA_OPENING_CURSOR
  | PA_GROW_UP
  | PA_MESH
  | PA_SCROLL_UP_RIGHT
  | PA_BLINDS
  | PA_CLOSING
  | PA_RANDOM
  | PA_GROW_DOWN
  | PA_SCAN_VERT
  | PA_SCROLL_DOWN_LEFT
  | PA_WIPE_CURSOR
  | PA_DISSOLVE
  | PA_OPENING
  | PA_CLOSING_CURSOR
  | PA_SCROLL_DOWN_RIGHT
  | PA_SCROLL_RIGHT
  | PA_SLICE
  | PA_SCROLL_DOWN
deriving DecidableEq, Fintype

/-- `textEffect_t effect[] = ...`: the initializer's entries, in their
declared order, with the commented-out entries omitted as in the
source. -/
def effect : List textEffect_t :=
  [ textEffect_t.PA_PRINT
  , textEffect_t.PA_SCROLL_LEFT
  , textEffect_t.PA_WIPE
  , textEffect_t.PA_SCROLL_UP_LEFT
  , textEffect_t.PA_SCROLL_UP
  , textEffect_t.PA_OPENING_CURSOR
  , textEffect_t.PA_GROW_UP
  , textEffect_t.PA_MESH
  , textEffect_t.PA_SCROLL_UP_RIGHT
  , textEffect_t.PA_CLOSING
  , textEffect_t.PA_RANDOM
  , textEffect_t.PA_GROW_DOWN
  , textEffect_t.PA_SCAN_VERT
  , textEffect_t.PA_SCROLL_DOWN_LEFT
  , textEffect_t.PA_WIPE_CURSOR
  , textEffect_t.PA_OPENING
  , textEffect_t.PA_CLOSING_CURSOR
  , textEffect_t.PA_SCROLL_DOWN_RIGHT
  , textEffect_t.PA_SCROLL_RIGHT
  , textEffect_t.PA_SCROLL_DOWN ]

/-! ## ESP_ticker.h: global character buffers

Each `char name[N]` declaration fixes the buffer capacity `N` at build
time; nothing in the fragment changes it. -/

/-- The global `char` array declarations of ESP_ticker.h. -/
inductive CharBuffer where
  | cDate
  | cTime
  | cMsg
  | tempMessage
  | actMessage
  | timeMsg
  | onTickerMessage
  | fileMessage
  | fChar
  | settingHostname
  | settingNewsNoWords
  | settingWeerLiveAUTH
  | settingWeerLiveLocation
  | settingNewsAUTH
deriving DecidableEq, Fintype

/-- The declared capacity of each global `char` array, read off its
declaration (`char cDate[15]`, `char cMsg[NEWS_SIZE]`, ...). -/
def declaredCapacity : CharBuffer → Nat
  | CharBuffer.cDate => 15
  | CharBuffer.cTime => 10
  | CharBuffer.cMsg => NEWS_SIZE
  | CharBuffer.tempMessage => LOCAL_SIZE
  | CharBuffer.actMessage => NEWS_SIZE
  | CharBuffer.timeMsg => 20
  | CharBuffer.onTickerMessage => LOCAL_SIZE
  | CharBuffer.fileMessage => LOCAL_SIZE
  | CharBuffer.fChar => 10
  | CharBuffer.settingHostname => 41
  | CharBuffer.settingNewsNoWords => LOCAL_SIZE
  | CharBuffer.settingWeerLiveAUTH => 51
  | CharBuffer.settingWeerLiveLocation => 51
  | CharBuffer.settingNewsAUTH => 51

/-! ## ESP_ticker.h: global variable declarations and their
initializing expressions -/

/-- The global variable declarations of ESP_ticker.h, in declaration
order. -/
inductive GlobalDecl where
  | inFX
  | outFX
  | effect
  | Verbose
  | cDate
  | cTime
  | nrReboots
  | cMsg
  | tempMessage
  | msgType
  | actMessage
  | timeMsg
  | onTickerMessage
  | fileMessage
  | newsMsgID
  | localMsgID
  | valueLDR
  | valueIntensity
  | fChar
  | lastReset
  | timeTimer
  | ntpTimer
  | weerTimer
  | newsapiTimer
  | revisionTimer
  | noWords
  | settingHostname
  | settingNewsNoWords
  | settingLocalMaxMsg
  | settingTextSpeed
  | settingMaxIntensity
  | settingLDRlowOffset
  | settingLDRhighOffset
  | settingWeerLiveAUTH
  | settingWeerLiveLocation
  | settingWeerLiveInterval
  | settingNewsAUTH
  | settingNewsInterval
  | settingNewsMaxMsg
  | LittleFSmounted
  | LittleFSinfo
  | now
  | timeinfo
  | timeSynced
  | timeSync
deriving DecidableEq, Fintype

/-- Whether the declaration carries an initializing expression in the
source (`= false`, `= ""`, `= 0`, `= millis() + 30000`, an aggregate
initializer, ...), read off each declaration of ESP_ticker.h. -/
def declHasInit : GlobalDecl → Bool
  | GlobalDecl.inFX => false
  | GlobalDecl.outFX => false
  | GlobalDecl.effect => true
  | GlobalDecl.Verbose => true
  | GlobalDecl.cDate => false
  | GlobalDecl.cTime => false
  | GlobalDecl.nrReboots => false
  | GlobalDecl.cMsg => false
  | GlobalDecl.tempMessage => true
  | GlobalDecl.msgType => false
  | GlobalDecl.actMessage => false
  | GlobalDecl.timeMsg => false
  | GlobalDecl.onTickerMessage => true
  | GlobalDecl.fileMessage => false
  | GlobalDecl.newsMsgID => true
  | GlobalDecl.localMsgID => true
  | GlobalDecl.valueLDR => false
  | GlobalDecl.valueIntensity => false
  | GlobalDecl.fChar => false
  | GlobalDecl.lastReset => true
  | GlobalDecl.timeTimer => true
  | GlobalDecl.ntpTimer => true
  | GlobalDecl.weerTimer => true
  | GlobalDecl.newsapiTimer => true
  | GlobalDecl.revisionTimer => true
  | GlobalDecl.noWords => false
  | GlobalDecl.settingHostname => false
  | GlobalDecl.settingNewsNoWords => false
  | GlobalDecl.settingLocalMaxMsg => false
  | GlobalDecl.settingTextSpeed => false
  | GlobalDecl.settingMaxIntensity => false
  | GlobalDecl.settingLDRlowOffset => false
  | GlobalDecl.settingLDRhighOffset => false
  | GlobalDecl.settingWeerLiveAUTH => false
  | GlobalDecl.settingWeerLiveLocation => false
  | GlobalDecl.settingWeerLiveInterval => false
  | GlobalDecl.settingNewsAUTH => false
  | GlobalDecl.settingNewsInterval => false
  | GlobalDecl.settingNewsMaxMsg => false
  | GlobalDecl.LittleFSmounted => true
  | GlobalDecl.LittleFSinfo => false
  | GlobalDecl.now => false
  | GlobalDecl.timeinfo => false
  | GlobalDecl.timeSynced => true
  | GlobalDecl.timeSync => false

/-- The global message buffers (the `char` arrays under the comment
"Global message buffers shared by Wifi and Scrolling functions",
plus `fileMessage`). -/
def isMessageBuffer : GlobalDecl → Bool
  | GlobalDecl.cMsg | GlobalDecl.tempMessage | GlobalDecl.actMessage
  | GlobalDecl.onTickerMessage | GlobalDecl.fileMessage => true
  | _ => false

/-- The timer cells. -/
def isTimerCell : GlobalDecl → Bool
  | GlobalDecl.timeTimer | GlobalDecl.ntpTimer | GlobalDecl.weerTimer
  | GlobalDecl.newsapiTimer | GlobalDecl.revisionTimer => true
  | _ => false

/-- The user-settings cells (`setting...`). -/
def isSettingsCell : GlobalDecl → Bool
  | GlobalDecl.settingHostname | GlobalDecl.settingNewsNoWords
  | GlobalDecl.settingLocalMaxMsg | GlobalDecl.settingTextSpeed
  | GlobalDecl.settingMaxIntensity | GlobalDecl.settingLDRlowOffset
  | GlobalDecl.settingLDRhighOffset | GlobalDecl.settingWeerLiveAUTH
  | GlobalDecl.settingWeerLiveLocation | GlobalDecl.settingWeerLiveInterval
  | GlobalDecl.settingNewsAUTH | GlobalDecl.settingNewsInterval
  | GlobalDecl.settingNewsMaxMsg => true
  | _ => false

/-! ## ESP_ticker.h: timer initial values

The timers are `uint32_t`; `millis()` returns an unsigned 32-bit
count, so `ntpTimer`'s initializing expression `millis() + 30000`
wraps modulo 2 ^ 32. -/

/-- `uint32_t timeTimer = 0;` -/
def timeTimer : Nat := 0

/-- `uint32_t ntpTimer = millis() + 30000;` as a function of the value
`millis()` returned at startup, with unsigned 32-bit wrap-around. -/
def ntpTimer (millis0 : Nat) : Nat := (millis0 + 30000) % 2 ^ 32

/-- `uint32_t weerTimer = 0;` -/
def weerTimer : Nat := 0

/-- `uint32_t newsapiTimer = 0;` -/
def newsapiTimer : Nat := 0

/-- `uint32_t revisionTimer = 0;` -/
def revisionTimer : Nat := 0

/-! ## ESP_ticker.h: name tables -/

/-- `const char *weekDayName[]`, entries in declared order. -/
def weekDayName : List String :=
  [ "Unknown", "Zondag", "Maandag", "Dinsdag", "Woensdag"
  , "Donderdag", "Vrijdag", "Zaterdag", "Unknown" ]

/-- `const char *flashMode[]`, entries in declared order. -/
def flashMode : List String :=
  [ "QIO", "QOUT", "DIO", "DOUT", "Unknown" ]

/-! ## Theorems -/

/-- Claim C1: for every argument list, each debug macro (`Debug`,
`Debugln`, `Debugf`, `DebugT`, `DebugTln`, `DebugTf`, `DebugFlush`)
performs exactly one call that forwards all of its arguments unmodified
to the corresponding underlying serial-transport operation (`print`,
`println`, `printf`, or `flush`), adding no extra arguments and
performing no other observable action: its trace is exactly the one
forwarded operation. -/
theorem C1_debug_macros_forward_one_call {alpha : Type}
    (Serial : HardwareSerial alpha) (args : alpha) :
    (Debug Serial args).2 = [SerialOp.print args] ∧
    (Debugln Serial args).2 = [SerialOp.println args] ∧
    (Debugf Serial args).2 = [SerialOp.printf args] ∧
    (DebugT Serial args).2 = [SerialOp.print args] ∧
    (DebugTln Serial args).2 = [SerialOp.println args] ∧
    (DebugTf Serial args).2 = [SerialOp.printf args] ∧
    (DebugFlush Serial).2 = [SerialOp.flush] :=
  ⟨rfl, rfl, rfl, rfl, rfl, rfl, rfl⟩

/-- Claim C2: the scroll-effect catalog `effect` is a fixed, enumerable
list in its declared, stable order: it begins with `PA_PRINT`, ends
with `PA_SCROLL_DOWN`, has 20 pairwise-distinct entries, and contains a
named effect of the fragment exactly when that name is not one of the
four commented-out ones. -/
theorem C2_effect_catalog_fixed :
    effect.head? = some textEffect_t.PA_PRINT ∧
    effect.getLast? = some textEffect_t.PA_SCROLL_DOWN ∧
    effect.length = 20 ∧
    effect.Nodup ∧
    (∀ e : textEffect_t, e ∈ effect ↔
      (e ≠ textEffect_t.PA_SCAN_HORIZ ∧ e ≠ textEffect_t.PA_BLINDS ∧
       e ≠ textEffect_t.PA_DISSOLVE ∧ e ≠ textEffect_t.PA_SLICE)) := by
  decide

/-- Claim C3: every declared global character buffer has a fixed,
non-zero capacity equal to its declared size; the long-message buffers
`cMsg` and `actMessage` have capacity `NEWS_SIZE` = 512 and the
local-message buffers `tempMessage`, `onTickerMessage`, `fileMessage`
have capacity `LOCAL_SIZE` = 255. -/
theorem C3_char_buffer_capacities :
    (∀ b : CharBuffer, 0 < declaredCapacity b) ∧
    NEWS_SIZE = 512 ∧ LOCAL_SIZE = 255 ∧
    declaredCapacity CharBuffer.cMsg = NEWS_SIZE ∧
    declaredCapacity CharBuffer.actMessage = NEWS_SIZE ∧
    declaredCapacity CharBuffer.tempMessage = LOCAL_SIZE ∧
    declaredCapacity CharBuffer.onTickerMessage = LOCAL_SIZE ∧
    declaredCapacity CharBuffer.fileMessage = LOCAL_SIZE := by
  decide

/-- Claim C4, counterexample: the write macros do yield a result usable
by the caller.  Each is a GNU statement expression whose value is the
count the underlying write returned, so at concrete inputs the value of
a `Debug` invocation distinguishes different argument lists — it is not
a unit value. -/
theorem C4_counterexample_write_macro_yields_value :
    (Debug stringSerial "ab").1 = 2 ∧
    (Debugln stringSerial "ab").1 = 4 ∧
    (Debug stringSerial "ab").1 ≠ (Debug stringSerial "x").1 := by
  decide

/-- Claim C4 as amended: each write macro evaluates to exactly the count
returned by its underlying transport write (its statement-expression
value), which the caller may use; `DebugFlush` yields no usable value;
and no macro has an error branch — each is a total function whose only
observable action is the single forwarded transport call, so a failure
of the transport is not signalled to the caller. -/
theorem C4_amended_macro_values_total {alpha : Type}
    (Serial : HardwareSerial alpha) (args : alpha) :
    (Debug Serial args).1 = Serial.printCount args ∧
    (Debugln Serial args).1 = Serial.printlnCount args ∧
    (Debugf Serial args).1 = Serial.printfCount args ∧
    (DebugFlush Serial).1 = () :=
  ⟨rfl, rfl, rfl, rfl⟩

/-- Claim C5: the settings-file path constant `SETTINGS_FILE` is
declared and equals the string "/settings.ini". -/
theorem C5_settings_file_path :
    SETTINGS_FILE = "/settings.ini" :=
  rfl

/-- Claim C6: exactly one HTTP server object, `httpServer`, is
instantiated by the fragment, and its constructor argument — the
listening port — is 80. -/
theorem C6_single_http_server_port_80 :
    declaredWebServers.map ESP8266WebServer.port = [80] ∧
    declaredWebServers.length = 1 ∧
    httpServer.port = 80 := by
  decide

/-- Claim C7, counterexample: the cells the claim calls uninitialized do
carry initializing expressions in their declarations: the timer cell
`timeTimer` is declared `uint32_t timeTimer = 0;` and the message
buffer `tempMessage` is declared with the initializer `""`. -/
theorem C7_counterexample_initialized_cells :
    isTimerCell GlobalDecl.timeTimer = true ∧
    declHasInit GlobalDecl.timeTimer = true ∧
    isMessageBuffer GlobalDecl.tempMessage = true ∧
    declHasInit GlobalDecl.tempMessage = true := by
  decide

/-- Claim C7 as amended: the settings cells and the message buffers
`cMsg`, `actMessage` and `fileMessage` are declared without
initializers, but every timer cell carries an initial value in its
declaration, as do the message buffers `tempMessage` and
`onTickerMessage`. -/
theorem C7_amended_init_pattern :
    (∀ d : GlobalDecl, isSettingsCell d = true → declHasInit d = false) ∧
    (∀ d : GlobalDecl, isTimerCell d = true → declHasInit d = true) ∧
    declHasInit GlobalDecl.cMsg = false ∧
    declHasInit GlobalDecl.actMessage = false ∧
    declHasInit GlobalDecl.fileMessage = false ∧
    declHasInit GlobalDecl.tempMessage = true ∧
    declHasInit GlobalDecl.onTickerMessage = true := by
  decide

/-- Witness for C7's amended theorem at concrete declarations:
`settingHostname` is a settings cell and has no initializer;
`ntpTimer` is a timer cell and has one. -/
theorem C7_amended_init_pattern_witness :
    declHasInit GlobalDecl.settingHostname = false ∧
    declHasInit GlobalDecl.ntpTimer = true :=
  ⟨C7_amended_init_pattern.1 GlobalDecl.settingHostname (by decide),
   C7_amended_init_pattern.2.1 GlobalDecl.ntpTimer (by decide)⟩

/-- Claim C8: for every argument list the timestamped-style macros are
observably equivalent to the plain ones — `DebugT`, `DebugTln`,
`DebugTf` yield the very same value and trace as `Debug`, `Debugln`,
`Debugf`; no timestamp or other prefixed output is added. -/
theorem C8_timestamped_macros_equal_plain {alpha : Type}
    (Serial : HardwareSerial alpha) (args : alpha) :
    DebugT Serial args = Debug Serial args ∧
    DebugTln Serial args = Debugln Serial args ∧
    DebugTf Serial args = Debugf Serial args :=
  ⟨rfl, rfl, rfl⟩

/-- Claim C9: `weekDayName` has exactly 9 entries, with the sentinel
"Unknown" at both index 0 and index 8, and indexing it with any value
from 0 through 8 yields a valid name. -/
theorem C9_weekday_table_sentinels :
    weekDayName.length = 9 ∧
    weekDayName[0]? = some "Unknown" ∧
    weekDayName[8]? = some "Unknown" ∧
    (∀ i : Nat, i < 9 → (weekDayName[i]?).isSome = true) := by
  decide

/-- Witness for C9 at the concrete index 3. -/
theorem C9_weekday_table_sentinels_witness :
    (weekDayName[3]?).isSome = true :=
  C9_weekday_table_sentinels.2.2.2 3 (by decide)

/-- Claim C10: at startup `ntpTimer` is initialized to the millisecond
clock's current value plus 30000 (deferring the first time
synchronization by 30 seconds; exact as long as the sum stays below the
unsigned 32-bit bound), while `timeTimer`, `weerTimer`, `newsapiTimer`
and `revisionTimer` are initialized to 0. -/
theorem C10_timer_initial_values (m : Nat) (h : m + 30000 < 2 ^ 32) :
    ntpTimer m = m + 30000 ∧
    timeTimer = 0 ∧ weerTimer = 0 ∧ newsapiTimer = 0 ∧ revisionTimer = 0 :=
  ⟨by simpa [ntpTimer] using Nat.mod_eq_of_lt h, rfl, rfl, rfl, rfl⟩

/-- Witness for C10 at the concrete startup clock value 1000. -/
theorem C10_timer_initial_values_witness :
    ntpTimer 1000 = 31000 ∧
    timeTimer = 0 ∧ weerTimer = 0 ∧ newsapiTimer = 0 ∧ revisionTimer = 0 :=
  C10_timer_initial_values 1000 (by norm_num)

end ESPTicker
